import Mathlib

/-!
Verification of the feature-to-hardware resolution and multi-target command
dispatch engine of the `interactive-pumpkin` repository, as implemented in
`src/wled-client.js` (classes `WLEDClient` and `ControllerManager`).

Shallow embedding conventions:

* JavaScript objects used as ordered string-keyed maps (`this.clients`,
  `byController`, `results`, the config's `controllers`/`features` tables) are
  modelled as association lists `List (String × _)`; `Object.entries`
  iteration order is the list order, matching JS insertion order for the
  non-numeric keys used by this program.
* The command payload (`props`: fx, pal, sx, ix, col, ...) is abstract: the
  client spreads it into the wire object without inspecting it, so it is a
  type parameter `α`.
* The network (axios) is an oracle `Net α : Request α → NetOutcome`: a
  request either yields an HTTP response (status plus response data) or a
  transport failure carrying the error message.  Every operation is a pure
  function of the oracle returning its normalized result together with the
  ordered trace of observable events (debug-log lines, attempted network
  calls, `console.error` lines).  `JSON.stringify` serialization is
  abstracted: a logged event carries the body value itself.
* A thrown JS `Error` is `Except.error` carrying the error's message string.
  `WLEDClient` operations never throw (every body is a single try/catch), so
  their result types are exception-free; `ControllerManager.getClient`,
  `setFeature` and `setMultipleTargets` can throw, so they return `Except`.
-/

/-- HTTP method of an outbound request. -/
inductive Method where
  | get
  | post
deriving DecidableEq, Repr

/-- One entry of a `{seg: [...]}` list: `{id: segmentId, ...props}`.
The id is optional because in JS a caller can pass `undefined` (an entry
whose `id` key is dropped by serialization). -/
structure SegEntry (α : Type) where
  id : Option Nat
  props : α
deriving DecidableEq, Repr

/-- Body of an outbound request, per the WLED JSON wire protocol:
`{seg: [...]}`, `{on}`, `{bri}` or `{ps}`. -/
inductive Body (α : Type) where
  | seg (segments : List (SegEntry α))
  | on (b : Bool)
  | bri (b : Int)
  | ps (presetId : Int)
deriving DecidableEq, Repr

/-- An outbound HTTP request: method, full url, optional JSON body. -/
structure Request (α : Type) where
  method : Method
  url : String
  body : Option (Body α)
deriving DecidableEq, Repr

/-- Response data reported by a controller.  Opaque to the client except for
`ping`, which reads the info query's `ver` and `name` fields. -/
structure RespData where
  ver : String
  name : String
deriving DecidableEq, Repr

/-- Outcome of one network call: an HTTP response, or a transport failure
(timeout, connection refused, non-2xx) carrying `error.message`. -/
inductive NetOutcome where
  | ok (status : Nat) (data : RespData)
  | fail (message : String)
deriving DecidableEq, Repr

/-- The network oracle: what axios does with each request. -/
def Net (α : Type) : Type := Request α → NetOutcome

/-- Observable events emitted by a client operation, in order. -/
inductive Event (α : Type) where
  | logged (controllerName : String) (text : String) (payload : Option (Body α))
  | netCall (req : Request α)
  | consoleError (text : String)
deriving DecidableEq, Repr

/-- True exactly on debug-log events (`this.log`). -/
def Event.isLogged {α : Type} : Event α → Bool
  | .logged _ _ _ => true
  | _ => false

/-- The requests attempted in a trace, in order. -/
def netRequests {α : Type} (tr : List (Event α)) : List (Request α) :=
  tr.filterMap fun e =>
    match e with
    | .netCall r => some r
    | _ => none

/-- Normalized result of a `WLEDClient` operation:
`{success:true, data}` or `{success:false, error, controller}`. -/
inductive OpResult where
  | ok (data : RespData)
  | err (message : String) (controller : String)
deriving DecidableEq, Repr

/-- The `success` field of an operation result. -/
def OpResult.success : OpResult → Bool
  | .ok _ => true
  | .err _ _ => false

/-- The `error` field of an operation result (`""` if absent). -/
def OpResult.errorMsg : OpResult → String
  | .ok _ => ""
  | .err m _ => m

/-- Result of `ping`: `{success:true, online:true, version, name}` or
`{success:false, online:false, error, controller}`. -/
inductive PingResult where
  | onlineOk (version : String) (name : String)
  | offline (message : String) (controller : String)
deriving DecidableEq, Repr

/-- The `online` field of a ping result. -/
def PingResult.online : PingResult → Bool
  | .onlineOk _ _ => true
  | .offline _ _ => false

/-- The `error` field of a ping result (`""` if absent). -/
def PingResult.errorMsg : PingResult → String
  | .onlineOk _ _ => ""
  | .offline m _ => m

/-- The `WLEDClient` class: per-controller protocol client state set by the
constructor (`baseUrl`, `name`, 5000 ms `timeout`, `debug`). -/
structure WLEDClient where
  baseUrl : String
  name : String
  timeout : Nat
  debug : Bool
deriving DecidableEq, Repr

/-- The `WLEDClient` constructor: `baseUrl = "http://" + ip`, timeout 5000. -/
def WLEDClient.make (ip name : String) (debug : Bool) : WLEDClient :=
  { baseUrl := "http://" ++ ip, name := name, timeout := 5000, debug := debug }

/-- The `log` method: emits a debug-log event only when `debug` is set. -/
def WLEDClient.logEv {α : Type} (c : WLEDClient) (text : String)
    (payload : Option (Body α)) : List (Event α) :=
  if c.debug then [Event.logged c.name text payload] else []

/-- The request `setSegment`/`setSegments` (and power/brightness/preset)
POST to: `POST <baseUrl>/json/state` with the given body. -/
def WLEDClient.stateReq {α : Type} (c : WLEDClient) (body : Body α) : Request α :=
  { method := Method.post, url := c.baseUrl ++ "/json/state", body := some body }

/-- The `setSegment(segmentId, props)` method: builds
`{seg:[{id: segmentId, ...props}]}`, logs before sending, posts, and
normalizes the outcome. -/
def WLEDClient.setSegment {α : Type} (c : WLEDClient) (net : Net α)
    (segmentId : Option Nat) (props : α) : OpResult × List (Event α) :=
  let payload : Body α := Body.seg [⟨segmentId, props⟩]
  let req := c.stateReq payload
  let pre := c.logEv "→ POST /json/state" (some payload)
  match net req with
  | NetOutcome.ok _ data =>
      (OpResult.ok data, pre ++ [Event.netCall req] ++ c.logEv "✓ Response" none)
  | NetOutcome.fail msg =>
      (OpResult.err msg c.name,
        pre ++ [Event.netCall req] ++ c.logEv "✗ Error" none
          ++ [Event.consoleError msg])

/-- The `setSegments(segments)` method: builds `{seg: segments}`, logs before
sending, posts, and normalizes the outcome. -/
def WLEDClient.setSegments {α : Type} (c : WLEDClient) (net : Net α)
    (segments : List (SegEntry α)) : OpResult × List (Event α) :=
  let payload : Body α := Body.seg segments
  let req := c.stateReq payload
  let pre := c.logEv "→ POST /json/state (multi-segment)" (some payload)
  match net req with
  | NetOutcome.ok _ data =>
      (OpResult.ok data, pre ++ [Event.netCall req] ++ c.logEv "✓ Response" none)
  | NetOutcome.fail msg =>
      (OpResult.err msg c.name,
        pre ++ [Event.netCall req] ++ c.logEv "✗ Error" none
          ++ [Event.consoleError msg])

/-- The `getState()` method: `GET <baseUrl>/json/state`, no pre-call log. -/
def WLEDClient.getState {α : Type} (c : WLEDClient) (net : Net α) :
    OpResult × List (Event α) :=
  let req : Request α := { method := Method.get, url := c.baseUrl ++ "/json/state", body := none }
  match net req with
  | NetOutcome.ok _ data => (OpResult.ok data, [Event.netCall req])
  | NetOutcome.fail msg =>
      (OpResult.err msg c.name, [Event.netCall req, Event.consoleError msg])

/-- The `getInfo()` method: `GET <baseUrl>/json/info`, no pre-call log. -/
def WLEDClient.getInfo {α : Type} (c : WLEDClient) (net : Net α) :
    OpResult × List (Event α) :=
  let req : Request α := { method := Method.get, url := c.baseUrl ++ "/json/info", body := none }
  match net req with
  | NetOutcome.ok _ data => (OpResult.ok data, [Event.netCall req])
  | NetOutcome.fail msg =>
      (OpResult.err msg c.name, [Event.netCall req, Event.consoleError msg])

/-- The `setPower(on)` method. -/
def WLEDClient.setPower {α : Type} (c : WLEDClient) (net : Net α) (onFlag : Bool) :
    OpResult × List (Event α) :=
  let payload : Body α := Body.on onFlag
  let req := c.stateReq payload
  let pre := c.logEv "→ POST /json/state (power)" (some payload)
  match net req with
  | NetOutcome.ok _ data =>
      (OpResult.ok data, pre ++ [Event.netCall req] ++ c.logEv "✓ Response" none)
  | NetOutcome.fail msg =>
      (OpResult.err msg c.name,
        pre ++ [Event.netCall req] ++ c.logEv "✗ Error" none
          ++ [Event.consoleError msg])

/-- The `setBrightness(bri)` method: the transmitted body is
`{bri: Math.max(0, Math.min(255, bri))}`. -/
def WLEDClient.setBrightness {α : Type} (c : WLEDClient) (net : Net α) (bri : Int) :
    OpResult × List (Event α) :=
  let payload : Body α := Body.bri (max 0 (min 255 bri))
  let req := c.stateReq payload
  let pre := c.logEv "→ POST /json/state (brightness)" (some payload)
  match net req with
  | NetOutcome.ok _ data =>
      (OpResult.ok data, pre ++ [Event.netCall req] ++ c.logEv "✓ Response" none)
  | NetOutcome.fail msg =>
      (OpResult.err msg c.name,
        pre ++ [Event.netCall req] ++ c.logEv "✗ Error" none
          ++ [Event.consoleError msg])

/-- The `loadPreset(presetId)` method. -/
def WLEDClient.loadPreset {α : Type} (c : WLEDClient) (net : Net α) (presetId : Int) :
    OpResult × List (Event α) :=
  let payload : Body α := Body.ps presetId
  let req := c.stateReq payload
  let pre := c.logEv "→ POST /json/state (preset)" (some payload)
  match net req with
  | NetOutcome.ok _ data =>
      (OpResult.ok data, pre ++ [Event.netCall req] ++ c.logEv "✓ Response" none)
  | NetOutcome.fail msg =>
      (OpResult.err msg c.name,
        pre ++ [Event.netCall req] ++ c.logEv "✗ Error" none
          ++ [Event.consoleError msg])

/-- The request `ping` issues: the info query. -/
def WLEDClient.pingReq {α : Type} (c : WLEDClient) : Request α :=
  { method := Method.get, url := c.baseUrl ++ "/json/info", body := none }

/-- The `ping()` method: issues the info query and reduces its outcome to an
online/offline result; the catch branch returns, it never rethrows. -/
def WLEDClient.ping {α : Type} (c : WLEDClient) (net : Net α) :
    PingResult × List (Event α) :=
  let req : Request α := c.pingReq
  match net req with
  | NetOutcome.ok _ data => (PingResult.onlineOk data.ver data.name, [Event.netCall req])
  | NetOutcome.fail msg => (PingResult.offline msg c.name, [Event.netCall req])

/-- One configured controller: `{ip, name, segments}` (the `segments` count
is never read by the client code and is omitted). -/
structure ControllerCfg where
  ip : String
  name : String
deriving DecidableEq, Repr

/-- One entry of a multi-segment feature's `targets` list. -/
structure Target where
  controller : String
  segment : Nat
deriving DecidableEq, Repr

/-- A configured feature, restricted to the fields the dispatch code reads:
`controller`/`segment` (absent on multi-segment features), the
`multiSegment` flag (absent means false) and the optional `targets` list. -/
structure Feature where
  controller : Option String
  segment : Option Nat
  multiSegment : Bool
  targets : Option (List Target)
deriving DecidableEq, Repr

/-- The `config.pumpkin` tables consumed by `ControllerManager`. -/
structure Config where
  controllers : List (String × ControllerCfg)
  features : List (String × Feature)
deriving DecidableEq, Repr

/-- The `ControllerManager` class: the config and the client table built by
the constructor. -/
structure ControllerManager where
  config : Config
  clients : List (String × WLEDClient)
deriving DecidableEq, Repr

/-- The `ControllerManager` constructor: `debugMode` is the `debug` argument
when non-null, else the environment default (`WLED_DEBUG !== 'false'`,
passed in as `envDebug`); one `WLEDClient` is built per configured
controller, in table order. -/
def ControllerManager.make (cfg : Config) (debug : Option Bool) (envDebug : Bool) :
    ControllerManager :=
  let debugMode := debug.getD envDebug
  { config := cfg
    clients := cfg.controllers.map fun kc =>
      (kc.1, WLEDClient.make kc.2.ip kc.2.name debugMode) }

/-- The `getClient(controllerKey)` method: throws
`Controller '<key>' not found` when the key is absent from the table. -/
def ControllerManager.getClient (m : ControllerManager) (controllerKey : String) :
    Except String WLEDClient :=
  match m.clients.lookup controllerKey with
  | some c => Except.ok c
  | none => Except.error ("Controller '" ++ controllerKey ++ "' not found")

/-- The client stored under a key, with a dummy fallback; used only to state
theorems whose hypotheses guarantee the key is present. -/
def ControllerManager.clientD (m : ControllerManager) (controllerKey : String) :
    WLEDClient :=
  (m.clients.lookup controllerKey).getD (WLEDClient.make "" "" false)

/-- One step of the JS grouping loop: `byController[k].push(v)`, creating the
key (at the end, per JS insertion order) when absent. -/
def insertAppend {β : Type} (acc : List (String × List β)) (k : String) (v : β) :
    List (String × List β) :=
  match acc with
  | [] => [(k, [v])]
  | (k', vs) :: rest =>
      if k' = k then (k', vs ++ [v]) :: rest
      else (k', vs) :: insertAppend rest k v

/-- The grouping loop of `setMultipleTargets`: builds `byController`, mapping
each controller key to its ordered list of `{id: target.segment, ...props}`
entries. -/
def groupByController {α : Type} (props : α) (targets : List Target) :
    List (String × List (SegEntry α)) :=
  targets.foldl (fun acc t => insertAppend acc t.controller ⟨some t.segment, props⟩) []

/-- Combined result of `setMultipleTargets`: `{success:true, data: results}`
or `{success:false, error, results}`. -/
inductive MultiOutcome where
  | ok (data : List (String × OpResult))
  | fail (error : String) (results : List (String × OpResult))
deriving DecidableEq, Repr

/-- The dispatch loop of `setMultipleTargets`: for each controller group, in
order, look the client up (throwing `Controller ... not found` if absent,
which aborts the loop), call `setSegments`, record the result under the
controller key and push `"<key>: <error>"` for each failure. -/
def ControllerManager.runGroups {α : Type} (m : ControllerManager) (net : Net α) :
    List (String × List (SegEntry α)) →
    Except String (List (String × OpResult) × List String) × List (Event α)
  | [] => (Except.ok ([], []), [])
  | (controllerKey, segments) :: rest =>
    match m.getClient controllerKey with
    | Except.error e => (Except.error e, [])
    | Except.ok client =>
      let res := client.setSegments net segments
      let errEntries :=
        if res.1.success then [] else [controllerKey ++ ": " ++ res.1.errorMsg]
      match m.runGroups net rest with
      | (Except.error e, tr') => (Except.error e, res.2 ++ tr')
      | (Except.ok (results, errors), tr') =>
          (Except.ok ((controllerKey, res.1) :: results, errEntries ++ errors),
            res.2 ++ tr')

/-- The `setMultipleTargets(targets, props)` method: group targets by
controller, dispatch one `setSegments` per group, and aggregate: failure
with `errors.join('; ')` when any error was collected, success otherwise. -/
def ControllerManager.setMultipleTargets {α : Type} (m : ControllerManager)
    (net : Net α) (targets : List Target) (props : α) :
    Except String MultiOutcome × List (Event α) :=
  let groups := groupByController props targets
  match m.runGroups net groups with
  | (Except.error e, tr) => (Except.error e, tr)
  | (Except.ok (results, errors), tr) =>
    if 0 < errors.length then
      (Except.ok (MultiOutcome.fail (String.intercalate "; " errors) results), tr)
    else
      (Except.ok (MultiOutcome.ok results), tr)

/-- What `setFeature` returns: the combined multi-target result on the
multi-segment path, a single `setSegment` result otherwise. -/
inductive FeatureOutcome where
  | multi (r : MultiOutcome)
  | single (r : OpResult)
deriving DecidableEq, Repr

/-- The single-segment branch of `setFeature`:
`this.getClient(feature.controller)` (a JS `undefined` controller field is
looked up under the property key `"undefined"`), then
`client.setSegment(feature.segment, props)`. -/
def ControllerManager.singleDispatch {α : Type} (m : ControllerManager) (net : Net α)
    (feature : Feature) (props : α) :
    Except String FeatureOutcome × List (Event α) :=
  match m.getClient (feature.controller.getD "undefined") with
  | Except.error e => (Except.error e, [])
  | Except.ok client =>
      let r := client.setSegment net feature.segment props
      (Except.ok (FeatureOutcome.single r.1), r.2)

/-- The `setFeature(featureName, props)` method: look the feature up
(throwing `Feature '<name>' not found` if absent), take the multi-target
path when `feature.multiSegment && feature.targets` is truthy (a present
`targets` array is truthy even when empty), else the single-segment path. -/
def ControllerManager.setFeature {α : Type} (m : ControllerManager) (net : Net α)
    (featureName : String) (props : α) :
    Except String FeatureOutcome × List (Event α) :=
  match m.config.features.lookup featureName with
  | none => (Except.error ("Feature '" ++ featureName ++ "' not found"), [])
  | some feature =>
    if feature.multiSegment && feature.targets.isSome then
      let r := m.setMultipleTargets net (feature.targets.getD []) props
      (r.1.map FeatureOutcome.multi, r.2)
    else
      m.singleDispatch net feature props

/-- The loop of `pingAll`: ping every client in table order, collecting each
result under its key. -/
def pingAllLoop {α : Type} (net : Net α) :
    List (String × WLEDClient) → List (String × PingResult) × List (Event α)
  | [] => ([], [])
  | (key, client) :: rest =>
    let r := client.ping net
    let rs := pingAllLoop net rest
    ((key, r.1) :: rs.1, r.2 ++ rs.2)

/-- The `pingAll()` method. -/
def ControllerManager.pingAll {α : Type} (m : ControllerManager) (net : Net α) :
    List (String × PingResult) × List (Event α) :=
  pingAllLoop net m.clients

/-- The request `setSegments` posts for a given segment list. -/
def segsRequest {α : Type} (c : WLEDClient) (segments : List (SegEntry α)) :
    Request α :=
  c.stateReq (Body.seg segments)

/-- Specification-side description of one group's dispatch outcome (the
`setSegments` result of the group's controller client). -/
def ControllerManager.groupOutcome {α : Type} (m : ControllerManager) (net : Net α)
    (g : String × List (SegEntry α)) : OpResult :=
  ((m.clientD g.1).setSegments net g.2).1

/-- Specification-side description of one group's error-list contribution:
`"<key>: <error>"` exactly when the group's dispatch failed. -/
def ControllerManager.failEntry {α : Type} (m : ControllerManager) (net : Net α)
    (g : String × List (SegEntry α)) : Option String :=
  if (m.groupOutcome net g).success then none
  else some (g.1 ++ ": " ++ (m.groupOutcome net g).errorMsg)

/-- Specification-side description of one group's event trace. -/
def ControllerManager.groupTrace {α : Type} (m : ControllerManager) (net : Net α)
    (g : String × List (SegEntry α)) : List (Event α) :=
  ((m.clientD g.1).setSegments net g.2).2

/-- Lookup in a grouped association list, defaulting to the empty list. -/
def lookupD {β : Type} (acc : List (String × List β)) (k : String) : List β :=
  (acc.lookup k).getD []

/-- Concrete client fixture: debug enabled. -/
def cW : WLEDClient := WLEDClient.make "10.0.0.5" "Main" true

/-- Concrete controller-reported data fixture. -/
def dataW : RespData := { ver := "0.14.0", name := "pumpkin" }

/-- Oracle fixture: every request succeeds with status 200. -/
def netOkW : Net Nat := fun _ => NetOutcome.ok 200 dataW

/-- Oracle fixture: every request fails at the transport level. -/
def netFailW : Net Nat := fun _ => NetOutcome.fail "connect ECONNREFUSED 10.0.0.9:80"

/-- Oracle fixture: controller `b` (10.0.0.6) times out, everything else
succeeds. -/
def netBFailW : Net Nat := fun r =>
  if r.url = "http://10.0.0.6/json/state" then
    NetOutcome.fail "timeout of 5000ms exceeded"
  else NetOutcome.ok 200 dataW

/-- Config fixture: controllers `a`, `b`; features exercising the single,
multi, absent-controller and absent-targets shapes. -/
def cfgW : Config :=
  { controllers := [("a", { ip := "10.0.0.5", name := "A" }),
                    ("b", { ip := "10.0.0.6", name := "B" })]
    features :=
      [ ("leftEye", { controller := some "a", segment := some 2,
                      multiSegment := false, targets := none })
      , ("phantom", { controller := some "ghost", segment := some 1,
                      multiSegment := false, targets := none })
      , ("noTargets", { controller := some "a", segment := some 1,
                        multiSegment := true, targets := none })
      , ("bothEyes", { controller := none, segment := none,
                       multiSegment := true,
                       targets := some [⟨"a", 2⟩, ⟨"a", 3⟩, ⟨"b", 0⟩] })
      , ("mixed", { controller := none, segment := none,
                    multiSegment := true,
                    targets := some [⟨"a", 0⟩, ⟨"ghost", 1⟩] }) ] }

/-- Manager fixture over `cfgW`, debug disabled. -/
def mW : ControllerManager := ControllerManager.make cfgW (some false) false

theorem netRequests_append {α : Type} (a b : List (Event α)) :
    netRequests (a ++ b) = netRequests a ++ netRequests b := by
  simp [netRequests]

theorem netRequests_setSegments {α : Type} (c : WLEDClient) (net : Net α)
    (segments : List (SegEntry α)) :
    netRequests (c.setSegments net segments).2 = [segsRequest c segments] := by
  cases h : net (c.stateReq (Body.seg segments)) <;>
    cases hd : c.debug <;>
      simp [WLEDClient.setSegments, WLEDClient.logEv, netRequests, segsRequest, h, hd]

/-- Claim C6: for every integer input level, `setBrightness` transmits the level
clamped to [0,255]: the one request it attempts carries body
`{bri: max 0 (min 255 bri)}`, which is 255 for inputs above 255, 0 for
negative inputs, and the input itself for inputs already in [0,255]. -/
theorem setBrightness_clamps {α : Type} (c : WLEDClient) (net : Net α) (bri : Int) :
    netRequests (c.setBrightness net bri).2
        = [c.stateReq (Body.bri (max 0 (min 255 bri)))]
    ∧ (255 < bri → max 0 (min 255 bri) = 255)
    ∧ (bri < 0 → max 0 (min 255 bri) = 0)
    ∧ (0 ≤ bri ∧ bri ≤ 255 → max 0 (min 255 bri) = bri) := by
  refine ⟨?_, fun h => by omega, fun h => by omega, fun h => by omega⟩
  cases h : net (c.stateReq (Body.bri (max 0 (min 255 bri)))) <;>
    cases hd : c.debug <;>
      simp [WLEDClient.setBrightness, WLEDClient.logEv, netRequests, h, hd]

/-- Witness for C6 at inputs 300, -10 and 128. -/
theorem setBrightness_clamps_witness :
    netRequests (cW.setBrightness netOkW 300).2
        = [cW.stateReq (Body.bri (max 0 (min 255 (300 : Int))))]
    ∧ max 0 (min 255 (300 : Int)) = 255
    ∧ max 0 (min 255 (-10 : Int)) = 0
    ∧ max 0 (min 255 (128 : Int)) = 128 :=
  ⟨(setBrightness_clamps cW netOkW 300).1,
   (setBrightness_clamps cW netOkW 300).2.1 (by norm_num),
   (setBrightness_clamps cW netOkW (-10)).2.2.1 (by norm_num),
   (setBrightness_clamps cW netOkW 128).2.2.2 ⟨by norm_num, by norm_num⟩⟩

/-- Claim C7: dispatching through `setSegment(id, props)` is behaviorally
equivalent to dispatching through `setSegments([{id, ...props}])`: same
normalized result, same attempted requests, and the shared wire body is
`{seg:[{id, ...props}]}`. -/
theorem setSegment_equiv_setSegments {α : Type} (c : WLEDClient) (net : Net α)
    (segmentId : Option Nat) (props : α) :
    (c.setSegment net segmentId props).1
        = (c.setSegments net [⟨segmentId, props⟩]).1
    ∧ netRequests (c.setSegment net segmentId props).2
        = netRequests (c.setSegments net [⟨segmentId, props⟩]).2
    ∧ netRequests (c.setSegment net segmentId props).2
        = [c.stateReq (Body.seg [⟨segmentId, props⟩])] := by
  cases h : net (c.stateReq (Body.seg [⟨segmentId, props⟩])) <;>
    cases hd : c.debug <;>
      simp [WLEDClient.setSegment, WLEDClient.setSegments, WLEDClient.logEv,
        netRequests, h, hd]

/-- Claim C5: with the transport failing on every request with message `msg`, every
client operation returns its structured failure result — the operations'
types are exception-free, so nothing is raised to the caller — and `ping` in
particular returns the offline result: `online = false` and error `msg`,
non-empty whenever the transport message is. -/
theorem client_catches_transport_failures {α : Type} (c : WLEDClient)
    (net : Net α) (msg : String)
    (hnet : ∀ r : Request α, net r = NetOutcome.fail msg) (hmsg : msg ≠ "") :
    (∀ sid (props : α), (c.setSegment net sid props).1 = OpResult.err msg c.name)
    ∧ (∀ segments, (c.setSegments net segments).1 = OpResult.err msg c.name)
    ∧ (c.getState net).1 = OpResult.err msg c.name
    ∧ (c.getInfo net).1 = OpResult.err msg c.name
    ∧ (∀ b, (c.setPower net b).1 = OpResult.err msg c.name)
    ∧ (∀ bri, (c.setBrightness net bri).1 = OpResult.err msg c.name)
    ∧ (∀ pid, (c.loadPreset net pid).1 = OpResult.err msg c.name)
    ∧ (c.ping net).1 = PingResult.offline msg c.name
    ∧ (c.ping net).1.online = false
    ∧ (c.ping net).1.errorMsg ≠ "" := by
  refine ⟨fun sid props => ?_, fun segments => ?_, ?_, ?_, fun b => ?_,
    fun bri => ?_, fun pid => ?_, ?_, ?_, ?_⟩ <;>
    simp [WLEDClient.setSegment, WLEDClient.setSegments, WLEDClient.getState,
      WLEDClient.getInfo, WLEDClient.setPower, WLEDClient.setBrightness,
      WLEDClient.loadPreset, WLEDClient.ping, WLEDClient.pingReq,
      PingResult.online, PingResult.errorMsg, hnet, hmsg]

/-- Witness for C5: a fully unreachable controller. -/
theorem client_catches_transport_failures_witness :
    (cW.getState netFailW).1
        = OpResult.err "connect ECONNREFUSED 10.0.0.9:80" cW.name
    ∧ (cW.ping netFailW).1
        = PingResult.offline "connect ECONNREFUSED 10.0.0.9:80" cW.name
    ∧ (cW.ping netFailW).1.online = false
    ∧ (cW.ping netFailW).1.errorMsg ≠ "" := by
  have h := client_catches_transport_failures cW netFailW
    "connect ECONNREFUSED 10.0.0.9:80" (fun _ => rfl) (by decide)
  exact ⟨h.2.2.1, h.2.2.2.2.2.2.2.1, h.2.2.2.2.2.2.2.2.1, h.2.2.2.2.2.2.2.2.2⟩

theorem pingAllLoop_spec {α : Type} (net : Net α) :
    ∀ cs : List (String × WLEDClient),
      (pingAllLoop net cs).1 = cs.map fun kc => (kc.1, (kc.2.ping net).1) := by
  intro cs
  induction cs with
  | nil => simp [pingAllLoop]
  | cons kc rest ih => simp [pingAllLoop, ih]

/-- Claim C9: `pingAll` returns exactly one entry per configured controller key, in
configuration order, each entry being that controller's individual ping
result; in particular the report's keys are exactly the configured keys, so
no aggregation into a single pass/fail occurs. -/
theorem pingAll_per_controller {α : Type} (cfg : Config) (debug : Option Bool)
    (envDebug : Bool) (net : Net α) :
    ((ControllerManager.make cfg debug envDebug).pingAll net).1
      = cfg.controllers.map (fun kc =>
          (kc.1,
           ((WLEDClient.make kc.2.ip kc.2.name (debug.getD envDebug)).ping net).1))
    ∧ ((ControllerManager.make cfg debug envDebug).pingAll net).1.map Prod.fst
      = cfg.controllers.map Prod.fst := by
  constructor <;>
    simp [ControllerManager.pingAll, ControllerManager.make, pingAllLoop_spec,
      List.map_map, Function.comp]

/-- Claim C4: calling `setFeature` with a feature key absent from the registry
fails with the `Feature '<name>' not found` error and an empty event trace:
zero network calls and no partial work. -/
theorem setFeature_unknown_feature {α : Type} (m : ControllerManager)
    (net : Net α) (featureName : String) (props : α)
    (habs : m.config.features.lookup featureName = none) :
    m.setFeature net featureName props
        = (Except.error ("Feature '" ++ featureName ++ "' not found"), [])
    ∧ netRequests (m.setFeature net featureName props).2 = [] := by
  have h : m.setFeature net featureName props
      = (Except.error ("Feature '" ++ featureName ++ "' not found"), []) := by
    simp [ControllerManager.setFeature, habs]
  exact ⟨h, by rw [h]; rfl⟩

/-- Witness for C4: the fixture registry has no feature `nope`. -/
theorem setFeature_unknown_feature_witness :
    mW.setFeature netOkW "nope" (7 : Nat)
        = (Except.error ("Feature '" ++ "nope" ++ "' not found"), [])
    ∧ netRequests (mW.setFeature netOkW "nope" (7 : Nat)).2 = [] :=
  setFeature_unknown_feature mW netOkW "nope" 7 (by decide)

/-- Claim C10: a feature whose `multiSegment` flag is true but whose `targets`
list is absent silently takes the single-segment path: `setFeature` equals
the single-segment dispatch on the feature's own `controller`/`segment`
fields, and when that controller exists the outcome is its `setSegment`
result. -/
theorem setFeature_multiSegment_without_targets {α : Type}
    (m : ControllerManager) (net : Net α) (featureName : String) (props : α)
    (f : Feature) (hf : m.config.features.lookup featureName = some f)
    (hms : f.multiSegment = true) (hts : f.targets = none) :
    m.setFeature net featureName props = m.singleDispatch net f props
    ∧ (∀ client, m.clients.lookup (f.controller.getD "undefined") = some client →
        m.setFeature net featureName props
          = (Except.ok (FeatureOutcome.single (client.setSegment net f.segment props).1),
             (client.setSegment net f.segment props).2)) := by
  have h1 : m.setFeature net featureName props = m.singleDispatch net f props := by
    simp [ControllerManager.setFeature, hf, hts]
  refine ⟨h1, fun client hc => ?_⟩
  rw [h1]
  simp [ControllerManager.singleDispatch, ControllerManager.getClient, hc]

/-- Witness for C10: the fixture feature `noTargets` has `multiSegment` set
and no `targets`. -/
theorem setFeature_multiSegment_without_targets_witness :
    mW.setFeature netOkW "noTargets" (7 : Nat)
        = mW.singleDispatch netOkW
            { controller := some "a", segment := some 1,
              multiSegment := true, targets := none } 7 :=
  (setFeature_multiSegment_without_targets mW netOkW "noTargets" 7
    { controller := some "a", segment := some 1,
      multiSegment := true, targets := none }
    (by decide) rfl rfl).1

/-- Claim C8 corrected: with debug enabled, each state-mutating operation emits its
debug-log entry (controller name, path text, body) first and attempts the
network call second — so intent is captured even when the call then fails —
while the read operations `getState`, `getInfo` and `ping` emit no log entry
at all before (or after) their network calls. -/
theorem post_ops_log_before_net {α : Type} (c : WLEDClient) (net : Net α)
    (hdbg : c.debug = true) :
    (∀ sid (props : α), (c.setSegment net sid props).2.take 2
        = [Event.logged c.name "→ POST /json/state"
             (some (Body.seg [⟨sid, props⟩])),
           Event.netCall (c.stateReq (Body.seg [⟨sid, props⟩]))])
    ∧ (∀ segments : List (SegEntry α), (c.setSegments net segments).2.take 2
        = [Event.logged c.name "→ POST /json/state (multi-segment)"
             (some (Body.seg segments)),
           Event.netCall (c.stateReq (Body.seg segments))])
    ∧ (∀ b, (c.setPower net b).2.take 2
        = [Event.logged c.name "→ POST /json/state (power)" (some (Body.on b)),
           Event.netCall (c.stateReq (Body.on b))])
    ∧ (∀ bri, (c.setBrightness net bri).2.take 2
        = [Event.logged c.name "→ POST /json/state (brightness)"
             (some (Body.bri (max 0 (min 255 bri)))),
           Event.netCall (c.stateReq (Body.bri (max 0 (min 255 bri))))])
    ∧ (∀ pid, (c.loadPreset net pid).2.take 2
        = [Event.logged c.name "→ POST /json/state (preset)" (some (Body.ps pid)),
           Event.netCall (c.stateReq (Body.ps pid))])
    ∧ (∀ e ∈ (c.getState net).2, e.isLogged = false)
    ∧ (∀ e ∈ (c.getInfo net).2, e.isLogged = false)
    ∧ (∀ e ∈ (c.ping net).2, e.isLogged = false) := by
  refine ⟨fun sid props => ?_, fun segments => ?_, fun b => ?_, fun bri => ?_,
    fun pid => ?_, ?_, ?_, ?_⟩
  · cases h : net (c.stateReq (Body.seg [⟨sid, props⟩])) <;>
      simp [WLEDClient.setSegment, WLEDClient.logEv, h, hdbg]
  · cases h : net (c.stateReq (Body.seg segments)) <;>
      simp [WLEDClient.setSegments, WLEDClient.logEv, h, hdbg]
  · cases h : net (c.stateReq (Body.on b)) <;>
      simp [WLEDClient.setPower, WLEDClient.logEv, h, hdbg]
  · cases h : net (c.stateReq (Body.bri (max 0 (min 255 bri)))) <;>
      simp [WLEDClient.setBrightness, WLEDClient.logEv, h, hdbg]
  · cases h : net (c.stateReq (Body.ps pid)) <;>
      simp [WLEDClient.loadPreset, WLEDClient.logEv, h, hdbg]
  · cases h : net (Request.mk Method.get (c.baseUrl ++ "/json/state") none) <;>
      simp [WLEDClient.getState, Event.isLogged, h]
  · cases h : net (Request.mk Method.get (c.baseUrl ++ "/json/info") none) <;>
      simp [WLEDClient.getInfo, Event.isLogged, h]
  · cases h : net (WLEDClient.pingReq (α := α) c) <;>
      simp [WLEDClient.ping, Event.isLogged, h]

/-- Witness for C8's corrected statement on the debug-enabled fixture. -/
theorem post_ops_log_before_net_witness :
    (cW.setSegment netOkW (some 2) (9 : Nat)).2.take 2
        = [Event.logged cW.name "→ POST /json/state"
             (some (Body.seg [⟨some 2, 9⟩])),
           Event.netCall (cW.stateReq (Body.seg [⟨some 2, (9 : Nat)⟩]))]
    ∧ ∀ e ∈ (WLEDClient.getState (α := Nat) cW netOkW).2, e.isLogged = false :=
  ⟨(post_ops_log_before_net cW netOkW rfl).1 (some 2) 9,
   (post_ops_log_before_net cW netOkW rfl).2.2.2.2.2.1⟩

/-- Claim C8 counterexample: `getState` on a debug-enabled client attempts its
network request with no log event anywhere in its trace, so not every
outbound request is preceded by a log entry. -/
theorem getState_unlogged_request_cex :
    cW.debug = true
    ∧ (WLEDClient.getState (α := Nat) cW netOkW).2
        = [Event.netCall
            { method := Method.get, url := "http://10.0.0.5/json/state",
              body := none }]
    ∧ ∀ e ∈ (WLEDClient.getState (α := Nat) cW netOkW).2, e.isLogged = false := by
  refine ⟨rfl, rfl, ?_⟩
  decide

theorem lookupD_nil {β : Type} (k : String) :
    lookupD ([] : List (String × List β)) k = [] := rfl

theorem lookupD_cons {β : Type} (k₀ k : String) (vs : List β)
    (tl : List (String × List β)) :
    lookupD ((k₀, vs) :: tl) k = if k = k₀ then vs else lookupD tl k := by
  by_cases h : k = k₀
  · simp [lookupD, List.lookup, h]
  · have hb : (k == k₀) = false := beq_eq_false_iff_ne.mpr h
    simp [lookupD, List.lookup, h, hb]

theorem lookupD_insertAppend {β : Type} (k k' : String) (v : β) :
    ∀ acc : List (String × List β),
      lookupD (insertAppend acc k v) k'
        = lookupD acc k' ++ (if k' = k then [v] else []) := by
  intro acc
  induction acc with
  | nil => by_cases h : k' = k <;> simp [insertAppend, lookupD_cons, lookupD_nil, h]
  | cons hd tl ih =>
    obtain ⟨k₀, vs⟩ := hd
    by_cases h₀ : k₀ = k
    · subst h₀
      by_cases h' : k' = k₀
      · subst h'
        simp [insertAppend, lookupD_cons]
      · simp [insertAppend, lookupD_cons, h']
    · by_cases h' : k' = k₀
      · subst h'
        have hne : ¬ k' = k := fun hh => h₀ (hh ▸ rfl)
        simp [insertAppend, h₀, lookupD_cons, hne]
      · simp [insertAppend, h₀, lookupD_cons, h', ih]

theorem lookupD_groupLoop {α : Type} (props : α) (k : String) :
    ∀ (ts : List Target) (acc : List (String × List (SegEntry α))),
      lookupD (ts.foldl (fun acc t =>
          insertAppend acc t.controller ⟨some t.segment, props⟩) acc) k
        = lookupD acc k
          ++ (ts.filter (fun t => t.controller = k)).map
              (fun t => (⟨some t.segment, props⟩ : SegEntry α)) := by
  intro ts
  induction ts with
  | nil => intro acc; simp
  | cons t ts ih =>
    intro acc
    rw [List.foldl_cons, ih, lookupD_insertAppend]
    by_cases h : t.controller = k
    · simp [List.filter_cons, h]
    · simp [List.filter_cons, h, Ne.symm h]

theorem keys_insertAppend {β : Type} (k : String) (v : β) :
    ∀ acc : List (String × List β),
      (insertAppend acc k v).map Prod.fst
        = if k ∈ acc.map Prod.fst then acc.map Prod.fst
          else acc.map Prod.fst ++ [k] := by
  intro acc
  induction acc with
  | nil => simp [insertAppend]
  | cons hd tl ih =>
    obtain ⟨k₀, vs⟩ := hd
    by_cases h₀ : k₀ = k
    · subst h₀; simp [insertAppend]
    · by_cases hm : k ∈ tl.map Prod.fst <;>
        simp [insertAppend, h₀, ih, hm, Ne.symm h₀]

theorem mem_keys_insertAppend {β : Type} (x k : String) (v : β)
    (acc : List (String × List β)) :
    x ∈ (insertAppend acc k v).map Prod.fst ↔ x ∈ acc.map Prod.fst ∨ x = k := by
  rw [keys_insertAppend]
  by_cases hm : k ∈ acc.map Prod.fst
  · simp only [if_pos hm]
    constructor
    · exact Or.inl
    · rintro (h | rfl)
      · exact h
      · exact hm
  · simp [if_neg hm]

theorem mem_keys_groupLoop {α : Type} (props : α) (x : String) :
    ∀ (ts : List Target) (acc : List (String × List (SegEntry α))),
      x ∈ (ts.foldl (fun acc t =>
          insertAppend acc t.controller ⟨some t.segment, props⟩) acc).map Prod.fst
        ↔ x ∈ acc.map Prod.fst ∨ x ∈ ts.map Target.controller := by
  intro ts
  induction ts with
  | nil => intro acc; simp
  | cons t ts ih =>
    intro acc
    rw [List.foldl_cons, ih, mem_keys_insertAppend]
    simp only [List.map_cons, List.mem_cons]
    tauto

theorem nodup_keys_groupLoop {α : Type} (props : α) :
    ∀ (ts : List Target) (acc : List (String × List (SegEntry α))),
      (acc.map Prod.fst).Nodup →
      ((ts.foldl (fun acc t =>
          insertAppend acc t.controller ⟨some t.segment, props⟩) acc).map
            Prod.fst).Nodup := by
  intro ts
  induction ts with
  | nil => intro acc h; simpa using h
  | cons t ts ih =>
    intro acc h
    rw [List.foldl_cons]
    apply ih
    rw [keys_insertAppend]
    by_cases hm : t.controller ∈ acc.map Prod.fst
    · simpa [hm] using h
    · simp [hm, List.nodup_append, h]

theorem runGroups_of_all_present {α : Type} (m : ControllerManager) (net : Net α) :
    ∀ groups : List (String × List (SegEntry α)),
      (∀ g ∈ groups, (m.clients.lookup g.1).isSome) →
      m.runGroups net groups
        = (Except.ok (groups.map (fun g => (g.1, m.groupOutcome net g)),
                      groups.filterMap (m.failEntry net)),
           (groups.map (m.groupTrace net)).flatten) := by
  intro groups
  induction groups with
  | nil => intro _; simp [ControllerManager.runGroups]
  | cons g rest ih =>
    intro hok
    obtain ⟨k, segs⟩ := g
    have hk : (m.clients.lookup k).isSome := hok _ (List.mem_cons_self _ _)
    obtain ⟨client, hc⟩ := Option.isSome_iff_exists.mp hk
    have hrest := ih (fun g hg => hok g (List.mem_cons_of_mem _ hg))
    have hcd : m.clientD k = client := by simp [ControllerManager.clientD, hc]
    cases hs : (client.setSegments net segs).1.success <;>
      simp [ControllerManager.runGroups, ControllerManager.getClient, hc, hrest,
        ControllerManager.groupOutcome, ControllerManager.failEntry,
        ControllerManager.groupTrace, hcd, hs, List.filterMap_cons]

theorem failEntries_eq_filter {α : Type} (m : ControllerManager) (net : Net α) :
    ∀ groups : List (String × List (SegEntry α)),
      groups.filterMap (m.failEntry net)
        = (groups.filter (fun g => !(m.groupOutcome net g).success)).map
            (fun g => g.1 ++ ": " ++ (m.groupOutcome net g).errorMsg) := by
  intro groups
  induction groups with
  | nil => rfl
  | cons g rest ih =>
    cases hs : (m.groupOutcome net g).success <;>
      simp [ControllerManager.failEntry, List.filterMap_cons, List.filter_cons,
        hs, ih]

/-- Claim C1: in a multi-segment dispatch in which every targeted controller exists
and at least one controller's `setSegments` call fails, `setMultipleTargets`
returns `success:false` with `error` the `'; '`-join, in partition iteration
order, of `"<key>: <message>"` for exactly the failing controllers, and with
`results` carrying every targeted controller's individual result, successes
included. -/
theorem multi_dispatch_partial_failure {α : Type} (m : ControllerManager)
    (net : Net α) (targets : List Target) (props : α)
    (hok : ∀ g ∈ groupByController props targets, (m.clients.lookup g.1).isSome)
    (hfail : ∃ g ∈ groupByController props targets,
        (m.groupOutcome net g).success = false) :
    (m.setMultipleTargets net targets props).1
      = Except.ok (MultiOutcome.fail
          (String.intercalate "; "
            (((groupByController props targets).filter
                (fun g => !(m.groupOutcome net g).success)).map
              (fun g => g.1 ++ ": " ++ (m.groupOutcome net g).errorMsg)))
          ((groupByController props targets).map
            (fun g => (g.1, m.groupOutcome net g)))) := by
  have hrg := runGroups_of_all_present m net (groupByController props targets) hok
  have hne : (groupByController props targets).filterMap (m.failEntry net) ≠ [] := by
    obtain ⟨g, hg, hgs⟩ := hfail
    have hmem : (g.1 ++ ": " ++ (m.groupOutcome net g).errorMsg)
        ∈ (groupByController props targets).filterMap (m.failEntry net) :=
      List.mem_filterMap.mpr ⟨g, hg, by simp [ControllerManager.failEntry, hgs]⟩
    exact List.ne_nil_of_mem hmem
  have hpos : 0 < ((groupByController props targets).filterMap
      (m.failEntry net)).length := List.length_pos.mpr hne
  simp only [failEntries_eq_filter, List.length_map] at hpos
  simp [ControllerManager.setMultipleTargets, hrg, failEntries_eq_filter, hpos]

/-- Witness for C1: controller `b` of the fixture times out while `a`
succeeds. -/
theorem multi_dispatch_partial_failure_witness :
    (mW.setMultipleTargets netBFailW [⟨"a", 0⟩, ⟨"b", 1⟩] 7).1
      = Except.ok (MultiOutcome.fail
          (String.intercalate "; "
            (((groupByController 7 [⟨"a", 0⟩, ⟨"b", 1⟩]).filter
                (fun g => !(mW.groupOutcome netBFailW g).success)).map
              (fun g => g.1 ++ ": " ++ (mW.groupOutcome netBFailW g).errorMsg)))
          ((groupByController 7 [⟨"a", 0⟩, ⟨"b", 1⟩]).map
            (fun g => (g.1, mW.groupOutcome netBFailW g)))) :=
  multi_dispatch_partial_failure mW netBFailW [⟨"a", 0⟩, ⟨"b", 1⟩] 7 (by decide)
    ⟨("b", [⟨some 1, 7⟩]), by decide, by decide⟩

theorem netRequests_groupTraces {α : Type} (m : ControllerManager) (net : Net α) :
    ∀ groups : List (String × List (SegEntry α)),
      netRequests ((groups.map (m.groupTrace net)).flatten)
        = groups.map (fun g => segsRequest (m.clientD g.1) g.2) := by
  intro groups
  induction groups with
  | nil => rfl
  | cons g rest ih =>
    simp only [List.map_cons, List.flatten_cons, netRequests_append, ih,
      ControllerManager.groupTrace, netRequests_setSegments]
    rfl

/-- Claim C2: multi-segment dispatch partitions the targets by controller key and
issues exactly one `setSegments` call per distinct controller: when every
targeted controller exists, the attempted requests are exactly one batched
`{seg: ...}` POST per partition group; the partition's keys are duplicate
free and are exactly the controllers referenced by the target list; and each
controller's group is that controller's targets, in target-list order, each
carrying the payload. -/
theorem multi_dispatch_batching {α : Type} (m : ControllerManager) (net : Net α)
    (targets : List Target) (props : α)
    (hok : ∀ g ∈ groupByController props targets, (m.clients.lookup g.1).isSome) :
    netRequests (m.setMultipleTargets net targets props).2
      = (groupByController props targets).map
          (fun g => segsRequest (m.clientD g.1) g.2)
    ∧ ((groupByController props targets).map Prod.fst).Nodup
    ∧ (∀ k, k ∈ (groupByController props targets).map Prod.fst
          ↔ k ∈ targets.map Target.controller)
    ∧ (∀ k, lookupD (groupByController props targets) k
          = (targets.filter (fun t => t.controller = k)).map
              (fun t => (⟨some t.segment, props⟩ : SegEntry α))) := by
  have hrg := runGroups_of_all_present m net (groupByController props targets) hok
  refine ⟨?_, ?_, ?_, ?_⟩
  · have htr : (m.setMultipleTargets net targets props).2
        = ((groupByController props targets).map (m.groupTrace net)).flatten := by
      simp only [ControllerManager.setMultipleTargets, hrg]
      split <;> rfl
    rw [htr, netRequests_groupTraces]
  · exact nodup_keys_groupLoop props targets [] (by simp)
  · intro k
    have h := mem_keys_groupLoop props k targets []
    simpa [groupByController] using h
  · intro k
    have h := lookupD_groupLoop props k targets []
    simpa [groupByController, lookupD_nil] using h

/-- Witness for C2: the fixture feature layout `[(a,2),(a,3),(b,0)]`. -/
theorem multi_dispatch_batching_witness :
    netRequests (mW.setMultipleTargets netOkW [⟨"a", 2⟩, ⟨"a", 3⟩, ⟨"b", 0⟩] 9).2
      = (groupByController 9 [⟨"a", 2⟩, ⟨"a", 3⟩, ⟨"b", 0⟩]).map
          (fun g => segsRequest (mW.clientD g.1) g.2)
    ∧ ((groupByController 9 [⟨"a", 2⟩, ⟨"a", 3⟩, ⟨"b", 0⟩]).map Prod.fst).Nodup
    ∧ (∀ k, k ∈ (groupByController 9 [⟨"a", 2⟩, ⟨"a", 3⟩, ⟨"b", 0⟩]).map Prod.fst
          ↔ k ∈ ([⟨"a", 2⟩, ⟨"a", 3⟩, ⟨"b", 0⟩] : List Target).map Target.controller)
    ∧ (∀ k, lookupD (groupByController 9 [⟨"a", 2⟩, ⟨"a", 3⟩, ⟨"b", 0⟩]) k
          = (([⟨"a", 2⟩, ⟨"a", 3⟩, ⟨"b", 0⟩] : List Target).filter
              (fun t => t.controller = k)).map
              (fun t => (⟨some t.segment, 9⟩ : SegEntry Nat))) :=
  multi_dispatch_batching mW netOkW [⟨"a", 2⟩, ⟨"a", 3⟩, ⟨"b", 0⟩] 9 (by decide)

theorem runGroups_error_of_prefix {α : Type} (m : ControllerManager) (net : Net α)
    (k : String) (segs : List (SegEntry α))
    (rest : List (String × List (SegEntry α))) :
    ∀ pre, (∀ g ∈ pre, (m.clients.lookup g.1).isSome) →
      m.clients.lookup k = none →
      m.runGroups net (pre ++ (k, segs) :: rest)
        = (Except.error ("Controller '" ++ k ++ "' not found"),
           (pre.map (m.groupTrace net)).flatten) := by
  intro pre
  induction pre with
  | nil =>
    intro _ hk
    simp [ControllerManager.runGroups, ControllerManager.getClient, hk]
  | cons g pre ih =>
    intro hok hk
    obtain ⟨k₀, segs₀⟩ := g
    have hk₀ : (m.clients.lookup k₀).isSome := hok _ (List.mem_cons_self _ _)
    obtain ⟨client, hc⟩ := Option.isSome_iff_exists.mp hk₀
    have hrec := ih (fun g hg => hok g (List.mem_cons_of_mem _ hg)) hk
    have hcd : m.clientD k₀ = client := by simp [ControllerManager.clientD, hc]
    simp [ControllerManager.runGroups, ControllerManager.getClient, hc, hrec,
      ControllerManager.groupTrace, hcd]

/-- Claim C3 corrected: a `FeatureNotFound` resolution error is surfaced
immediately, names the missing feature, and no network call is attempted;
a `ControllerNotFound` error is surfaced naming the missing controller key,
with no network call on the single-segment path, but on the multi-segment
path it is raised only when the dispatch loop reaches the missing
controller's group: the groups before it in partition order have already had
their batched network calls attempted, and no later group is dispatched. -/
theorem resolution_errors_surfaced {α : Type} (m : ControllerManager)
    (net : Net α) (featureName : String) (props : α) :
    (m.config.features.lookup featureName = none →
      m.setFeature net featureName props
        = (Except.error ("Feature '" ++ featureName ++ "' not found"), []))
    ∧ (∀ f, m.config.features.lookup featureName = some f →
        (f.multiSegment && f.targets.isSome) = false →
        m.clients.lookup (f.controller.getD "undefined") = none →
        m.setFeature net featureName props
          = (Except.error ("Controller '" ++ f.controller.getD "undefined"
               ++ "' not found"), []))
    ∧ (∀ f ts pre k segs rest, m.config.features.lookup featureName = some f →
        f.multiSegment = true → f.targets = some ts →
        groupByController props ts = pre ++ (k, segs) :: rest →
        (∀ g ∈ pre, (m.clients.lookup g.1).isSome) →
        m.clients.lookup k = none →
        m.setFeature net featureName props
          = (Except.error ("Controller '" ++ k ++ "' not found"),
             (pre.map (m.groupTrace net)).flatten)) := by
  refine ⟨fun habs => ?_, fun f hf hcond hlk => ?_,
    fun f ts pre k segs rest hf hms hts hgr hok hk => ?_⟩
  · simp [ControllerManager.setFeature, habs]
  · simp [ControllerManager.setFeature, hf, hcond,
      ControllerManager.singleDispatch, ControllerManager.getClient, hlk]
  · have hrun := runGroups_error_of_prefix m net k segs rest pre hok hk
    simp [ControllerManager.setFeature, hf, hms, hts,
      ControllerManager.setMultipleTargets, hgr, hrun, Except.map]

/-- Witness for C3's corrected statement: the fixture feature `mixed` targets
the existing controller `a` before the missing controller `ghost`. -/
theorem resolution_errors_surfaced_witness :
    mW.setFeature netOkW "mixed" (7 : Nat)
      = (Except.error ("Controller '" ++ "ghost" ++ "' not found"),
         (([("a", [⟨some 0, 7⟩])] : List (String × List (SegEntry Nat))).map
            (mW.groupTrace netOkW)).flatten) :=
  (resolution_errors_surfaced mW netOkW "mixed" 7).2.2
    { controller := none, segment := none, multiSegment := true,
      targets := some [⟨"a", 0⟩, ⟨"ghost", 1⟩] }
    [⟨"a", 0⟩, ⟨"ghost", 1⟩] [("a", [⟨some 0, 7⟩])] "ghost" [⟨some 1, 7⟩] []
    (by decide) rfl rfl (by decide) (by decide) (by decide)

/-- Claim C3 counterexample: dispatching the fixture feature `mixed`, whose second
target references the missing controller `ghost`, surfaces the
`ControllerNotFound` error only after a network call to controller `a` has
been attempted — so "no network call attempted" does not hold for this
resolution error. -/
theorem resolution_error_after_network_call_cex :
    (mW.setFeature netOkW "mixed" (7 : Nat)).1
        = Except.error "Controller 'ghost' not found"
    ∧ netRequests (mW.setFeature netOkW "mixed" (7 : Nat)).2
        = [{ method := Method.post, url := "http://10.0.0.5/json/state",
             body := some (Body.seg [⟨some 0, 7⟩]) }] := by
  exact ⟨rfl, rfl⟩
